import Mathlib

/-!
# Kibali Store IA — client orchestration layer, shallow embedding

This file embeds the client-side orchestration logic of the Kibali Store IA
repository (`src/App.tsx`, the legacy variant in `src/unnamed/part_001`, and the
type declarations in `src/unnamed/part_000`) and proves the behavioural
properties claimed by the specification.

Modelling conventions:
* Every React `useState` cell of a component becomes a field of an explicit
  state record; a handler becomes a pure function from its inputs and the
  pre-state to the post-state (plus a trace of the gateway calls it issued).
* An `await apiFetch(...)` suspension is modelled by passing the outcome of that
  network call as an explicit argument of type `FetchResult α`: `ok data` for a
  decoded success body, `err msg` for a rejected promise whose `err.message` is
  `msg` (timeouts, transport failures, non-2xx statuses and runtime exceptions
  all surface this way inside a handler's `catch`).
* The browser `confirm(...)` dialog is an external boolean predicate on the
  message shown, passed in as `gate : String → Bool`.
* JSON fields that the backend may omit are modelled with `Option`; reading a
  property of `undefined` (a JavaScript `TypeError`) is modelled by an
  `Except.error` that the enclosing `try/catch` turns into `setError`.
-/

/-- Outcome of one `apiFetch` call as observed by the *caller* (the handler):
either the decoded JSON body, or a thrown error carrying its message string. -/
inductive FetchResult (α : Type) where
  | ok (data : α)
  | err (msg : String)
  deriving Repr, DecidableEq

/-- A JSON scalar value appearing in the diagnostics records (the TS type is
`Record<string, any>`; the mock data uses numbers and strings). -/
inductive JsonVal where
  | str (s : String)
  | num (n : Nat)
  deriving Repr, DecidableEq

/-- `DiagnosticsSnapshot`: the `/diagnostics` response shape (`Diagnostics` in
`App.tsx`): three string-keyed records plus two optional advisory strings. -/
structure Diagnostics where
  cpu : List (String × JsonVal)
  ram : List (String × JsonVal)
  gpuCuda : List (String × JsonVal)
  conseilRam : Option String
  conseilGpu : Option String
  deriving Repr, DecidableEq

namespace V3

/-- `ModelInfo` from `src/App.tsx` (exact backend-V3 shape). The TS field
`type` is renamed `typ` because `Type` is a Lean keyword. -/
structure ModelInfo where
  nom : String
  repo_id : String
  chemin : String
  taille_fmt : String
  taille_bytes : Nat
  statut : String
  typ : String
  pytorch : Bool
  tf : Bool
  cuda_compatible : Bool
  standard_hf : Bool
  custom_files : List String
  deriving Repr, DecidableEq

/-- `SearchResult` from `src/App.tsx`. -/
structure SearchResult where
  id : String
  author : String
  downloads : Nat
  is_standard : Bool
  tags : List String
  likes : Nat
  pipeline_tag : Option String
  deriving Repr, DecidableEq

/-- `SnippetResponse` from `src/App.tsx`. -/
structure SnippetResponse where
  code : String
  description : String
  is_standard : Bool
  deriving Repr, DecidableEq

/-- `VerifyResponse` from `src/App.tsx`. -/
structure VerifyResponse where
  repo_id : String
  fonctionnel : Bool
  details : String
  path : Option String
  deriving Repr, DecidableEq

/-- The `/models/check-remote` response consumed by `handleDownload` (the spec
calls it `PreflightCheck`). The response is untyped JSON in the source;
`custom_files` is `Option` because line 170 of `App.tsx` explicitly guards
against its absence (`check.custom_files && ...`) while line 169 does not. -/
structure RemoteCheck where
  is_standard : Bool
  custom_files : Option (List String)
  deriving Repr, DecidableEq

/-- The active navigation tab. -/
inductive Tab where
  | inventory
  | discover
  | system
  deriving Repr, DecidableEq

/-- The `useState` cells of the `App` component in `src/App.tsx`. -/
structure AppState where
  models : List ModelInfo
  diagnostics : Option Diagnostics
  searchResults : List SearchResult
  isLoading : Bool
  loadingMessage : String
  activeTab : Tab
  searchQuery : String
  error : Option String
  snippetData : Option SnippetResponse
  verifyData : Option VerifyResponse
  showCleanupConfirm : Bool
  deriving Repr, DecidableEq

/-- `fetchModels` (App.tsx lines 111–122): sets the busy flag and scan message,
awaits `GET /models`; on success replaces the model collection wholesale, on
failure sets the fixed backend-unavailable notice and leaves the collection
untouched; the `finally` always clears the busy flag. -/
def fetchModels (result : FetchResult (List ModelInfo)) (s : AppState) : AppState :=
  let s0 := { s with isLoading := true, loadingMessage := "Scan des modèles locaux..." }
  match result with
  | .ok data => { s0 with models := data, isLoading := false }
  | .err _ =>
    { s0 with error := some "Backend indisponible. Vérifiez que \x27main.py\x27 est lancé.",
              isLoading := false }

/-- `handleSearch` (App.tsx lines 140–155). Returns the post-state and the
number of gateway calls issued. `if (!searchQuery) return;` is the JS falsy
test on the query string: the empty query returns before any call and before
the busy flag is touched. On a non-empty query the delivered hit list is
stored verbatim by `setSearchResults(data)`. -/
def handleSearch (result : FetchResult (List SearchResult)) (s : AppState) :
    AppState × Nat :=
  if s.searchQuery = "" then (s, 0)
  else
    let s0 := { s with isLoading := true,
                       loadingMessage :=
                         "Exploration Hugging Face pour \"" ++ s.searchQuery ++ "\"..." }
    match result with
    | .ok data => ({ s0 with searchResults := data, isLoading := false }, 1)
    | .err m => ({ s0 with error := some m, isLoading := false }, 1)

/-- The confirmation-message construction of `handleDownload`
(App.tsx lines 167–172), including the JavaScript failure mode: when
`check.is_standard` is false the code reads `check.custom_files.join(", ")`
unconditionally, so an absent `custom_files` field throws a `TypeError`
(modelled as `Except.error`); only the standard branch guards with
`check.custom_files && check.custom_files.length > 0`. -/
def buildConfirmMsg (repoId : String) (check : RemoteCheck) : Except String String :=
  if check.is_standard = false then
    match check.custom_files with
    | none =>
      .error "Cannot read properties of undefined (reading \x27join\x27)"
    | some files =>
      .ok ("⚠️ ATTENTION: " ++ repoId ++ " est un modèle CUSTOM.\nIl contient des fichiers Python spécifiques : "
        ++ String.intercalate ", " files
        ++ ".\n\nSon utilisation demandera du code manuel.\nContinuer ?")
  else if (match check.custom_files with
           | some files => decide (files.length > 0)
           | none => false) then
    .ok ("ℹ️ Note : " ++ repoId ++ " est Standard mais contient du code custom ("
      ++ toString ((check.custom_files.getD []).length)
      ++ " fichiers).\nIl faudra utiliser trust_remote_code=True.\nContinuer ?")
  else
    .ok ("Télécharger " ++ repoId ++ " ?")

/-- Trace of one `handleDownload` run: how many `POST /models/download` calls
were issued, whether the `confirm` gate was ever evaluated, which message it
was shown, and how many `fetchModels` refreshes followed. -/
structure DownloadTrace where
  downloadCalls : Nat
  gateEvaluated : Bool
  confirmMsg : Option String
  refreshCalls : Nat
  deriving Repr, DecidableEq

/-- `handleDownload` (App.tsx lines 157–195): preflight via
`POST /models/check-remote`, build the confirmation message (three cases),
show the `confirm` gate; declining returns early (`setIsLoading(false); return`),
accepting issues exactly one `POST /models/download`, then switches to the
inventory tab and fires `fetchModels()`. Any thrown error (preflight failure,
the `TypeError` of a missing `custom_files`, download failure) lands in the
`catch` which sets the error notice; the `finally` always clears the busy
flag. -/
def handleDownload (repoId : String) (preflight : FetchResult RemoteCheck)
    (gate : String → Bool) (download : FetchResult Unit)
    (refreshResult : FetchResult (List ModelInfo)) (s : AppState) :
    AppState × DownloadTrace :=
  let s0 := { s with isLoading := true, loadingMessage := "Analyse de " ++ repoId ++ "..." }
  match preflight with
  | .err m => ({ s0 with error := some m, isLoading := false }, ⟨0, false, none, 0⟩)
  | .ok check =>
    match buildConfirmMsg repoId check with
    | .error m => ({ s0 with error := some m, isLoading := false }, ⟨0, false, none, 0⟩)
    | .ok msg =>
      if gate msg = false then
        ({ s0 with isLoading := false }, ⟨0, true, some msg, 0⟩)
      else
        let s1 := { s0 with loadingMessage := "Démarrage du téléchargement optimisé (Aria2)..." }
        match download with
        | .err m => ({ s1 with error := some m, isLoading := false }, ⟨1, true, some msg, 0⟩)
        | .ok _ =>
          let s2 := { s1 with activeTab := Tab.inventory }
          ({ fetchModels refreshResult s2 with isLoading := false }, ⟨1, true, some msg, 1⟩)

/-- `handleDelete` (App.tsx lines 197–211): the gate is evaluated first, before
the busy flag is touched; declining returns with the state unchanged. On
acceptance one `DELETE /models` call is issued; success awaits `fetchModels()`;
failure sets the error notice; the `finally` clears the busy flag. The `Nat`
component counts delete calls. -/
def handleDelete (repoId : String) (gate : String → Bool)
    (deleteResult : FetchResult Unit) (refreshResult : FetchResult (List ModelInfo))
    (s : AppState) : AppState × Nat :=
  if gate ("Supprimer " ++ repoId ++ " ? Cette action est irréversible.") = false then
    (s, 0)
  else
    let s0 := { s with isLoading := true }
    match deleteResult with
    | .err m => ({ s0 with error := some m, isLoading := false }, 1)
    | .ok _ => ({ fetchModels refreshResult s0 with isLoading := false }, 1)

/-- `handleSnippet` (App.tsx lines 213–226). -/
def handleSnippet (result : FetchResult SnippetResponse) (s : AppState) : AppState :=
  let s0 := { s with isLoading := true }
  match result with
  | .ok d => { s0 with snippetData := some d, isLoading := false }
  | .err m => { s0 with error := some m, isLoading := false }

/-- `handleVerify` (App.tsx lines 228–242). -/
def handleVerify (result : FetchResult VerifyResponse) (s : AppState) : AppState :=
  let s0 := { s with isLoading := true,
                     loadingMessage := "Vérification d\x27intégrité..." }
  match result with
  | .ok d => { s0 with verifyData := some d, isLoading := false }
  | .err m => { s0 with error := some m, isLoading := false }

/-- Trace of one `handleCleanup` run: how many `fetchModels` refreshes were
fired afterwards, and the text of the completion alert (if any). -/
structure CleanupTrace where
  refreshCalls : Nat
  alerted : Option String
  deriving Repr, DecidableEq

/-- `handleCleanup` (App.tsx lines 245–257): issues
`POST /system/cleanup?type=incomplete`; on success alerts with the reported
count and fires `fetchModels()` unconditionally (no branch on the count); on
failure sets the error notice; the `finally` clears both the busy flag and the
confirmation modal flag. The function is only invoked from the modal's
accepting button, i.e. after the confirmation gate accepted. -/
def handleCleanup (result : FetchResult Nat)
    (refreshResult : FetchResult (List ModelInfo)) (s : AppState) :
    AppState × CleanupTrace :=
  let s0 := { s with isLoading := true }
  match result with
  | .ok count =>
    ({ fetchModels refreshResult s0 with isLoading := false, showCleanupConfirm := false },
     ⟨1, some ("Nettoyage terminé : " ++ toString count ++ " dossiers supprimés.")⟩)
  | .err m =>
    ({ s0 with error := some m, isLoading := false, showCleanupConfirm := false },
     ⟨0, none⟩)

end V3

namespace Legacy

/-- `ModelInfo` from `src/unnamed/part_000` (the legacy type file): every field
is a string, including the Oui/Non flags. The TS field `Type` is renamed `typ`
because `Type` is a Lean keyword. -/
structure ModelInfo where
  nom : String
  chemin : String
  taille : String
  statut : String
  typ : String
  pytorch : String
  tf : String
  cuda : String
  standardHF : String
  repoID : String
  deriving Repr, DecidableEq

/-- `getMockModels` from `src/unnamed/part_001` (lines 33–36): the fixed
placeholder dataset adopted when the backend is unreachable. -/
def getMockModels : List ModelInfo :=
  [ { nom := "Kibali-Llama-3-Mock", chemin := "/mock/path/llama", taille := "8.0GB",
      statut := "Complet", typ := "LLM", pytorch := "Oui", tf := "Non", cuda := "Oui",
      standardHF := "Oui", repoID := "meta-llama/Llama-3-8B" },
    { nom := "Kibali-StableDiffusion-XL", chemin := "/mock/path/sdxl", taille := "6.5GB",
      statut := "Complet", typ := "Diffusion", pytorch := "Oui", tf := "Non", cuda := "Oui",
      standardHF := "Oui", repoID := "stabilityai/stable-diffusion-xl-base-1.0" } ]

/-- `getMockDiagnostics` from `src/unnamed/part_001` (lines 38–44): the fixed
placeholder snapshot seeded on a first diagnostics failure. -/
def getMockDiagnostics : Diagnostics :=
  { cpu := [("Cœurs", .num 8), ("Threads", .num 16), ("Fréquence", .str "3.5GHz")],
    ram := [("Totale", .str "16GB"), ("Utilisée", .str "45%"), ("Libre", .str "8.8GB")],
    gpuCuda := [("Disponible", .str "Oui"), ("Nom GPU", .str "NVIDIA RTX 3080"),
                ("VRAM", .str "10GB")],
    conseilRam := some "✅ Système stable.",
    conseilGpu := some "✅ Accélération activée." }

/-- What the network does on one gateway call, as seen from outside the
client: a response (with HTTP status and body) delivered `arrivalMs`
milliseconds after the request, or a transport-level failure (connection
refused / network error) surfacing after `arrivalMs` milliseconds. -/
inductive TransportEvent where
  | responds (arrivalMs : Nat) (status : Nat) (body : String)
  | transportFailure (arrivalMs : Nat)
  deriving Repr, DecidableEq

/-- Milliseconds after the request at which the transport event materialises. -/
def TransportEvent.arrival : TransportEvent → Nat
  | .responds t _ _ => t
  | .transportFailure t => t

/-- How one `apiFetch` call of `src/unnamed/part_001` terminates, translated
to the specification's error taxonomy. `abortTimeout` is the `AbortError`
rejection produced when the 3000 ms timer fires `controller.abort()`;
`unreachable` is the `TypeError` rejection of a transport failure;
`apiError status` is the error thrown on a non-2xx response. -/
inductive GatewayFailure where
  | abortTimeout
  | unreachable
  | apiError (status : Nat)
  deriving Repr, DecidableEq

/-- The timeout budget hard-wired in `src/unnamed/part_001` line 49:
`setTimeout(() => controller.abort(), 3000)`. -/
def timeoutBudgetMs : Nat := 3000

/-- `apiFetch` from `src/unnamed/part_001` (lines 46–62). The
`AbortController` timer fires iff the transport event has not materialised
within `timeoutBudgetMs`; an aborted fetch rejects with `AbortError`
(`abortTimeout`) regardless of what the network would eventually have done.
An event arriving within the budget is processed: `res.ok`
(status 200–299) decodes the body, a non-ok status throws `API Error: status`,
a transport failure rejects with a `TypeError` (`unreachable`). The
`clearTimeout` on the success path disarms the timer before decoding. -/
def apiFetch (ev : TransportEvent) : Except GatewayFailure String :=
  if ev.arrival > timeoutBudgetMs then
    .error .abortTimeout
  else
    match ev with
    | .responds _ status body =>
      if 200 ≤ status ∧ status ≤ 299 then .ok body
      else .error (.apiError status)
    | .transportFailure _ => .error .unreachable

/-- The `useState` cells of the legacy `App` component relevant to the
inventory store: the model collection, the degraded-mode notice, the busy
flag. -/
structure StoreState where
  models : List ModelInfo
  errorNotice : Option String
  isLoading : Bool
  deriving Repr, DecidableEq

/-- `fetchModels` from `src/unnamed/part_001` (lines 64–76): clears the
notice and sets the busy flag, awaits `GET /models`; success replaces the
collection wholesale; failure adopts the fixed `getMockModels` placeholder and
sets the demo-mode notice; the `finally` clears the busy flag. -/
def fetchModels (result : FetchResult (List ModelInfo)) (s : StoreState) : StoreState :=
  let s0 := { s with isLoading := true, errorNotice := none }
  match result with
  | .ok data => { s0 with models := data, isLoading := false }
  | .err _ =>
    { s0 with models := getMockModels,
              errorNotice := some "Serveur Backend non détecté (Mode Démo activé)",
              isLoading := false }

end Legacy

/-! ## Diagnostics poller

Both App variants run the same polling skeleton
(`App.tsx` lines 131–136, `part_001` lines 87–92): the mount effect issues one
immediate `fetchDiagnostics()`, installs `setInterval(fetchDiagnostics, period)`,
and its cleanup — the poller's `stop()` — runs `clearInterval` and unmounts the
component. The state below models the component cell holding the snapshot
together with the two facts the event loop tracks: whether the interval is
still installed (so scheduled ticks fire) and whether the component is still
mounted. React makes a state-setter call on an unmounted component a no-op, so
a fetch completing after stop is discarded on arrival; `setSnapshot` encodes
exactly that runtime rule. -/

/-- Poller-visible state: the diagnostics snapshot cell, the error-notice cell
(shared with the rest of the app — the diagnostics path never writes it), and
the two event-loop facts. -/
structure PollState where
  snapshot : Option Diagnostics
  errorNotice : Option String
  intervalActive : Bool
  mounted : Bool
  deriving Repr, DecidableEq

/-- `setDiagnostics(d)`: a React state-setter call, a no-op once the component
is unmounted. -/
def setSnapshot (d : Diagnostics) (s : PollState) : PollState :=
  if s.mounted then { s with snapshot := some d } else s

namespace V3

/-- `fetchDiagnostics` from `App.tsx` (lines 124–129) applied to the outcome of
its gateway call: success replaces the snapshot wholesale; the `catch` is
empty (`/* Silent fail for polling */`) — no error notice, no placeholder, no
interval manipulation. -/
def fetchDiagnosticsApply (outcome : FetchResult Diagnostics) (s : PollState) : PollState :=
  match outcome with
  | .ok d => setSnapshot d s
  | .err _ => s

end V3

namespace Legacy

/-- `fetchDiagnostics` from `src/unnamed/part_001` (lines 78–85): success
replaces the snapshot wholesale; the `catch` seeds `getMockDiagnostics` only
when the snapshot cell is still null (`if (!diagnostics)`), which can only be
the case before any fetch has completed — so at most the first-ever completed
failure installs the placeholder. No error notice, no interval manipulation. -/
def fetchDiagnosticsApply (outcome : FetchResult Diagnostics) (s : PollState) : PollState :=
  match outcome with
  | .ok d => setSnapshot d s
  | .err _ => if s.snapshot = none then setSnapshot getMockDiagnostics s else s

end Legacy

/-- One scheduled interval tick: `setInterval`'s callback runs only while the
interval is installed (`clearInterval` removes it deterministically), and when
it runs it performs one `fetchDiagnostics` whose outcome is applied by
`apply`. -/
def pollTick (apply : FetchResult Diagnostics → PollState → PollState)
    (s : PollState) (outcome : FetchResult Diagnostics) : PollState :=
  if s.intervalActive then apply outcome s else s

/-- A run of the polling loop: the scheduled ticks fire in order, each applying
its own fetch outcome. -/
def runPoller (apply : FetchResult Diagnostics → PollState → PollState)
    (outcomes : List (FetchResult Diagnostics)) (s : PollState) : PollState :=
  outcomes.foldl (pollTick apply) s

/-- The effect cleanup on unmount — the poller's `stop()`:
`clearInterval(interval)` removes the scheduled tick, and the component is
unmounted. -/
def stopPoller (s : PollState) : PollState :=
  { s with intervalActive := false, mounted := false }

/-! ## Auxiliary executable definitions for stating the theorems -/

/-- Is `pat` a prefix of `l`? (Character-list helper, structural recursion so
concrete instances evaluate by `decide`.) -/
def segStarts : List Char → List Char → Bool
  | [], _ => true
  | _ :: _, [] => false
  | p :: ps, c :: cs => p == c && segStarts ps cs

/-- Does `pat` occur as a contiguous segment of the second list? -/
def hasSeg (pat : List Char) : List Char → Bool
  | [] => segStarts pat []
  | c :: cs => segStarts pat (c :: cs) || hasSeg pat cs

/-- Does the string `s` mention `pat` as a substring? Used to state whether a
confirmation message lists a given filename. -/
def mentions (s pat : String) : Bool := hasSeg pat.data s.data

/-- A concrete freshly-mounted component state (the `useState` initial values
of `App.tsx`), used to instantiate witnesses. -/
def sampleState : V3.AppState :=
  { models := [], diagnostics := none, searchResults := [], isLoading := false,
    loadingMessage := "", activeTab := V3.Tab.inventory, searchQuery := "",
    error := none, snippetData := none, verifyData := none,
    showCleanupConfirm := false }

/-- A concrete poller state right after the mount effect installed the
interval, before any fetch has completed. -/
def samplePollState : PollState :=
  { snapshot := none, errorNotice := none, intervalActive := true, mounted := true }

/-! ## Shared lemmas -/

/-- Whenever the preflight decodes and the message construction succeeds, the
`confirm` gate is shown exactly that message, whatever it answers and whatever
the later download call does. -/
theorem handleDownload_confirmMsg (repoId : String) (check : V3.RemoteCheck)
    (gate : String → Bool) (dl : FetchResult Unit)
    (rf : FetchResult (List V3.ModelInfo)) (s : V3.AppState) (msg : String)
    (h : V3.buildConfirmMsg repoId check = .ok msg) :
    (V3.handleDownload repoId (.ok check) gate dl rf s).2.confirmMsg = some msg := by
  cases dl <;> simp only [V3.handleDownload, h] <;> split <;> simp

/-- Interval ticks stop firing once the interval has been cleared (for any
tick body). -/
theorem runPoller_inactive (apply : FetchResult Diagnostics → PollState → PollState)
    (outcomes : List (FetchResult Diagnostics)) (s : PollState)
    (h : s.intervalActive = false) : runPoller apply outcomes s = s := by
  induction outcomes with
  | nil => rfl
  | cons o os ih =>
    simp only [runPoller, List.foldl_cons, pollTick, h]
    exact ih

/-! ## Claims -/

/-- C1, counterexample: the claim says the standard-but-custom-files case
"lists the files", but the source (App.tsx line 171) interpolates only
`check.custom_files.length`. At the concrete preflight result
`is_standard = true, custom_files = ["modeling.py", "config.py"]` the built
message does not mention the filename `"modeling.py"` at all, and it is
identical to the message built for a completely different file list of the
same length — so the message cannot be listing the files. -/
theorem confirm_note_does_not_list_files :
    ((V3.buildConfirmMsg "org/custom-model"
        ⟨true, some ["modeling.py", "config.py"]⟩).toOption.map
      (fun msg => mentions msg "modeling.py") = some false) ∧
    ((V3.buildConfirmMsg "org/custom-model"
        ⟨true, some ["modeling.py", "config.py"]⟩).toOption =
     (V3.buildConfirmMsg "org/custom-model"
        ⟨true, some ["alpha.py", "beta.py"]⟩).toOption) := by
  exact ⟨by decide, rfl⟩

/-- C1 (amended): after preflight returns, the confirmation message is built
from exactly three exhaustive cases over the preflight result: not standard →
strong warning enumerating every entry of `customFiles` (joined with `", "`);
standard with non-empty `customFiles` → informational note that
`trust_remote_code=True` will be required, stating the *number* of custom
files (not their names); standard with no custom files → plain confirmation. -/
theorem download_confirm_three_cases (repoId : String) (files : List String)
    (gate : String → Bool) (dl : FetchResult Unit)
    (rf : FetchResult (List V3.ModelInfo)) (s : V3.AppState) :
    ((V3.handleDownload repoId (.ok ⟨false, some files⟩) gate dl rf s).2.confirmMsg =
      some ("⚠️ ATTENTION: " ++ repoId
        ++ " est un modèle CUSTOM.\nIl contient des fichiers Python spécifiques : "
        ++ String.intercalate ", " files
        ++ ".\n\nSon utilisation demandera du code manuel.\nContinuer ?")) ∧
    (files ≠ [] →
      (V3.handleDownload repoId (.ok ⟨true, some files⟩) gate dl rf s).2.confirmMsg =
        some ("ℹ️ Note : " ++ repoId ++ " est Standard mais contient du code custom ("
          ++ toString files.length
          ++ " fichiers).\nIl faudra utiliser trust_remote_code=True.\nContinuer ?")) ∧
    ((V3.handleDownload repoId (.ok ⟨true, some []⟩) gate dl rf s).2.confirmMsg =
      some ("Télécharger " ++ repoId ++ " ?")) := by
  refine ⟨?_, fun hne => ?_, ?_⟩
  · exact handleDownload_confirmMsg repoId ⟨false, some files⟩ gate dl rf s _ rfl
  · cases files with
    | nil => exact absurd rfl hne
    | cons f fs =>
      refine handleDownload_confirmMsg repoId ⟨true, some (f :: fs)⟩ gate dl rf s _ ?_
      simp [V3.buildConfirmMsg]
  · exact handleDownload_confirmMsg repoId ⟨true, some []⟩ gate dl rf s _ rfl

/-- Witness for C1 (amended), at the spec §8 example input: repo
`org/custom-model` with two custom files and a standard classification. -/
theorem download_confirm_three_cases_witness :
    (V3.handleDownload "org/custom-model"
        (.ok ⟨true, some ["modeling.py", "config.py"]⟩)
        (fun _ => true) (.ok ()) (.ok []) sampleState).2.confirmMsg =
      some ("ℹ️ Note : org/custom-model est Standard mais contient du code custom ("
        ++ toString (["modeling.py", "config.py"].length)
        ++ " fichiers).\nIl faudra utiliser trust_remote_code=True.\nContinuer ?") :=
  (download_confirm_three_cases "org/custom-model" ["modeling.py", "config.py"]
    (fun _ => true) (.ok ()) (.ok []) sampleState).2.1 (by decide)

/-- C2: when preflight succeeds (and the message construction does not throw),
an accepting gate triggers exactly one `POST /models/download` call, while a
declining gate triggers zero download calls and returns early with no further
gateway call (in particular no inventory refresh). -/
theorem download_gate_controls_call (repoId : String) (check : V3.RemoteCheck)
    (gate : String → Bool) (dl : FetchResult Unit)
    (rf : FetchResult (List V3.ModelInfo)) (s : V3.AppState) (msg : String)
    (h : V3.buildConfirmMsg repoId check = .ok msg) :
    (gate msg = true →
      (V3.handleDownload repoId (.ok check) gate dl rf s).2.downloadCalls = 1) ∧
    (gate msg = false →
      (V3.handleDownload repoId (.ok check) gate dl rf s).2.downloadCalls = 0 ∧
      (V3.handleDownload repoId (.ok check) gate dl rf s).2.refreshCalls = 0) := by
  constructor
  · intro hg
    cases dl <;> simp [V3.handleDownload, h, hg]
  · intro hg
    cases dl <;> simp [V3.handleDownload, h, hg]

/-- Witness for C2: a standard repository with no custom-files field; the
always-accepting gate yields exactly one download-start call. -/
theorem download_gate_controls_call_witness :
    (V3.handleDownload "org/custom-model" (.ok ⟨true, none⟩) (fun _ => true)
        (.ok ()) (.ok []) sampleState).2.downloadCalls = 1 :=
  (download_gate_controls_call "org/custom-model" ⟨true, none⟩ (fun _ => true)
    (.ok ()) (.ok []) sampleState ("Télécharger " ++ "org/custom-model" ++ " ?")
    rfl).1 rfl

/-- C3: an empty search query performs zero gateway calls and leaves the whole
state (in particular the stored result set) unchanged; a non-empty query
issues exactly one gateway call and, when the call succeeds, stores the
delivered hit sequence verbatim — no client-side re-sorting or filtering. -/
theorem search_empty_noop_nonempty_verbatim
    (result : FetchResult (List V3.SearchResult)) (s : V3.AppState) :
    (s.searchQuery = "" → V3.handleSearch result s = (s, 0)) ∧
    (s.searchQuery ≠ "" →
      (V3.handleSearch result s).2 = 1 ∧
      ∀ data, result = .ok data →
        (V3.handleSearch result s).1.searchResults = data) := by
  constructor
  · intro hq
    simp [V3.handleSearch, hq]
  · intro hq
    cases result with
    | ok data =>
      refine ⟨by simp [V3.handleSearch, hq], ?_⟩
      intro d hd
      cases hd
      simp [V3.handleSearch, hq]
    | err m =>
      exact ⟨by simp [V3.handleSearch, hq], fun d hd => by cases hd⟩

/-- Witness for C3: the non-empty query `"mistral"` issues one gateway call
and stores the delivered (empty) hit list verbatim. -/
theorem search_empty_noop_nonempty_verbatim_witness :
    (V3.handleSearch (.ok []) { sampleState with searchQuery := "mistral" }).2 = 1 ∧
    (V3.handleSearch (.ok [])
      { sampleState with searchQuery := "mistral" }).1.searchResults =
      ([] : List V3.SearchResult) :=
  ⟨((search_empty_noop_nonempty_verbatim (.ok [])
      { sampleState with searchQuery := "mistral" }).2 (by decide)).1,
   ((search_empty_noop_nonempty_verbatim (.ok [])
      { sampleState with searchQuery := "mistral" }).2 (by decide)).2 [] rfl⟩

/-- C4: every orchestrator action (search, download, delete, snippet, verify,
cleanup) leaves the shared busy flag `isLoading` false on every exit path —
success, failure, or early return after a declined confirmation. The
hypothesis `s.isLoading = false` covers the two handlers (`handleSearch` on an
empty query, `handleDelete` on a declined gate) that return before ever
touching the flag; every other path clears it via an explicit
`setIsLoading(false)` or the `finally` block. -/
theorem busy_flag_cleared_on_every_exit (s : V3.AppState)
    (h : s.isLoading = false) :
    (∀ result, ((V3.handleSearch result s).1).isLoading = false) ∧
    (∀ repoId preflight gate dl rf,
      ((V3.handleDownload repoId preflight gate dl rf s).1).isLoading = false) ∧
    (∀ repoId gate del rf,
      ((V3.handleDelete repoId gate del rf s).1).isLoading = false) ∧
    (∀ result, (V3.handleSnippet result s).isLoading = false) ∧
    (∀ result, (V3.handleVerify result s).isLoading = false) ∧
    (∀ cr rf, ((V3.handleCleanup cr rf s).1).isLoading = false) := by
  refine ⟨?_, ?_, ?_, ?_, ?_, ?_⟩
  · intro result
    by_cases hq : s.searchQuery = ""
    · simp [V3.handleSearch, hq, h]
    · cases result <;> simp [V3.handleSearch, hq]
  · intro repoId preflight gate dl rf
    cases preflight with
    | err m => simp [V3.handleDownload]
    | ok check =>
      cases hb : V3.buildConfirmMsg repoId check with
      | error m => simp [V3.handleDownload, hb]
      | ok msg =>
        by_cases hg : gate msg = false
        · simp [V3.handleDownload, hb, hg]
        · cases dl <;> simp [V3.handleDownload, hb, hg]
  · intro repoId gate del rf
    by_cases hg :
        gate ("Supprimer " ++ repoId ++ " ? Cette action est irréversible.") = false
    · simp [V3.handleDelete, hg, h]
    · cases del <;> simp [V3.handleDelete, hg]
  · intro result
    cases result <;> simp [V3.handleSnippet]
  · intro result
    cases result <;> simp [V3.handleVerify]
  · intro cr rf
    cases cr <;> simp [V3.handleCleanup]

/-- Witness for C4: from the initial (non-busy) component state, a cleanup
action whose gateway call succeeds with count 0 ends not busy. -/
theorem busy_flag_cleared_on_every_exit_witness :
    ((V3.handleCleanup (.ok 0) (.ok []) sampleState).1).isLoading = false :=
  (busy_flag_cleared_on_every_exit sampleState rfl).2.2.2.2.2 (.ok 0) (.ok [])

/-- C5: a failing inventory refresh always sets a degraded-mode notice and
applies exactly one of the two shipped substitute policies — `App.tsx`
(StrictSurface) retains the previous model collection completely unchanged,
while the legacy variant (`src/unnamed/part_001`, SilentFallback) replaces it
with the fixed `getMockModels` placeholder dataset. No failing refresh
produces any other collection value. -/
theorem refresh_failure_two_policies (m : String) (s3 : V3.AppState)
    (sL : Legacy.StoreState) :
    ((V3.fetchModels (.err m) s3).models = s3.models ∧
     (V3.fetchModels (.err m) s3).error =
       some "Backend indisponible. Vérifiez que \x27main.py\x27 est lancé.") ∧
    ((Legacy.fetchModels (.err m) sL).models = Legacy.getMockModels ∧
     (Legacy.fetchModels (.err m) sL).errorNotice =
       some "Serveur Backend non détecté (Mode Démo activé)") :=
  ⟨⟨rfl, rfl⟩, ⟨rfl, rfl⟩⟩

/-- C6: in the gateway that configures a timeout budget
(`src/unnamed/part_001`), a call whose transport event materialises after the
3000 ms budget is cancelled by the `AbortController` and fails with the
timeout error (`AbortError`), never with the unreachable error; the
unreachable error arises only from a transport-level failure (and only one
arriving within the budget, since a later one is pre-empted by the abort). -/
theorem gateway_timeout_never_unreachable (ev : Legacy.TransportEvent) :
    (ev.arrival > Legacy.timeoutBudgetMs →
      Legacy.apiFetch ev = .error .abortTimeout) ∧
    (Legacy.apiFetch ev = .error .unreachable →
      ∃ t, ev = .transportFailure t ∧ t ≤ Legacy.timeoutBudgetMs) := by
  constructor
  · intro hgt
    simp [Legacy.apiFetch, hgt]
  · intro hu
    cases ev with
    | responds t status body =>
      exfalso
      by_cases hgt : Legacy.TransportEvent.arrival (.responds t status body) >
          Legacy.timeoutBudgetMs
      · simp [Legacy.apiFetch, hgt] at hu
      · by_cases hok : 200 ≤ status ∧ status ≤ 299 <;>
          simp [Legacy.apiFetch, hgt, hok] at hu
    | transportFailure t =>
      refine ⟨t, rfl, ?_⟩
      by_cases hgt : Legacy.TransportEvent.arrival (.transportFailure t) >
          Legacy.timeoutBudgetMs
      · simp [Legacy.apiFetch, hgt] at hu
      · simpa [Legacy.TransportEvent.arrival] using Nat.le_of_not_lt hgt

/-- Witness for C6: a 200 response arriving after 5000 ms (past the 3000 ms
budget) resolves to the timeout error. -/
theorem gateway_timeout_never_unreachable_witness :
    Legacy.apiFetch (.responds 5000 200 "late-body") =
      .error .abortTimeout :=
  (gateway_timeout_never_unreachable (.responds 5000 200 "late-body")).1
    (by decide)

/-- A run of failing ticks never changes a legacy poller state whose snapshot
cell is already populated. -/
theorem runPoller_legacy_err_keep (outcomes : List (FetchResult Diagnostics))
    (s : PollState) (hfail : ∀ o ∈ outcomes, ∃ m, o = FetchResult.err m)
    (d : Diagnostics) (hsnap : s.snapshot = some d) :
    runPoller Legacy.fetchDiagnosticsApply outcomes s = s := by
  revert hfail
  induction outcomes with
  | nil => intro _; rfl
  | cons o os ih =>
    intro hfail
    obtain ⟨m, rfl⟩ := hfail _ (List.mem_cons_self _ _)
    have hstep : pollTick Legacy.fetchDiagnosticsApply s (.err m) = s := by
      simp [pollTick, Legacy.fetchDiagnosticsApply, hsnap]
    calc runPoller Legacy.fetchDiagnosticsApply (FetchResult.err m :: os) s
        = runPoller Legacy.fetchDiagnosticsApply os
            (pollTick Legacy.fetchDiagnosticsApply s (.err m)) := rfl
      _ = runPoller Legacy.fetchDiagnosticsApply os s := by rw [hstep]
      _ = s := ih (fun x hx => hfail x (List.mem_cons_of_mem _ hx))

/-- A non-empty run of failing ticks on a legacy poller whose snapshot cell is
still null seeds the placeholder on the first failure and then leaves the
state untouched. -/
theorem runPoller_legacy_err_seed (outcomes : List (FetchResult Diagnostics))
    (s : PollState) (hfail : ∀ o ∈ outcomes, ∃ m, o = FetchResult.err m)
    (hact : s.intervalActive = true) (hm : s.mounted = true)
    (hsnap : s.snapshot = none) (hne : outcomes ≠ []) :
    runPoller Legacy.fetchDiagnosticsApply outcomes s =
      { s with snapshot := some Legacy.getMockDiagnostics } := by
  cases outcomes with
  | nil => exact absurd rfl hne
  | cons o os =>
    obtain ⟨m, rfl⟩ := hfail _ (List.mem_cons_self _ _)
    have hstep : pollTick Legacy.fetchDiagnosticsApply s (.err m) =
        { s with snapshot := some Legacy.getMockDiagnostics } := by
      simp [pollTick, hact, Legacy.fetchDiagnosticsApply, hsnap, setSnapshot, hm]
    calc runPoller Legacy.fetchDiagnosticsApply (FetchResult.err m :: os) s
        = runPoller Legacy.fetchDiagnosticsApply os
            (pollTick Legacy.fetchDiagnosticsApply s (.err m)) := rfl
      _ = runPoller Legacy.fetchDiagnosticsApply os
            { s with snapshot := some Legacy.getMockDiagnostics } := by rw [hstep]
      _ = { s with snapshot := some Legacy.getMockDiagnostics } :=
          runPoller_legacy_err_keep os _
            (fun x hx => hfail x (List.mem_cons_of_mem _ hx))
            Legacy.getMockDiagnostics rfl

/-- In the `App.tsx` poller every failing tick is a complete no-op. -/
theorem runPoller_v3_err (outcomes : List (FetchResult Diagnostics))
    (s : PollState) (hfail : ∀ o ∈ outcomes, ∃ m, o = FetchResult.err m) :
    runPoller V3.fetchDiagnosticsApply outcomes s = s := by
  revert hfail
  induction outcomes with
  | nil => intro _; rfl
  | cons o os ih =>
    intro hfail
    obtain ⟨m, rfl⟩ := hfail _ (List.mem_cons_self _ _)
    have hstep : pollTick V3.fetchDiagnosticsApply s (.err m) = s := by
      simp [pollTick, V3.fetchDiagnosticsApply]
    calc runPoller V3.fetchDiagnosticsApply (FetchResult.err m :: os) s
        = runPoller V3.fetchDiagnosticsApply os
            (pollTick V3.fetchDiagnosticsApply s (.err m)) := rfl
      _ = runPoller V3.fetchDiagnosticsApply os s := by rw [hstep]
      _ = s := ih (fun x hx => hfail x (List.mem_cons_of_mem _ hx))

/-- C7: after any number N of consecutive diagnostics-fetch failures, no error
notice is surfaced, the interval keeps scheduling further ticks (the loop
never self-terminates), and at most the first-ever failure may install the
placeholder snapshot (`part_001` seeds `getMockDiagnostics` only when the
snapshot cell is still null; all later failures leave the snapshot unchanged;
the `App.tsx` variant never touches the state on failure at all). -/
theorem diagnostics_failures_swallowed (s : PollState)
    (outcomes : List (FetchResult Diagnostics))
    (hfail : ∀ o ∈ outcomes, ∃ m, o = FetchResult.err m)
    (hact : s.intervalActive = true) (hm : s.mounted = true) :
    (runPoller Legacy.fetchDiagnosticsApply outcomes s).intervalActive = true ∧
    (runPoller Legacy.fetchDiagnosticsApply outcomes s).errorNotice = s.errorNotice ∧
    (runPoller Legacy.fetchDiagnosticsApply outcomes s).snapshot =
      (if s.snapshot = none ∧ outcomes ≠ [] then some Legacy.getMockDiagnostics
       else s.snapshot) ∧
    runPoller V3.fetchDiagnosticsApply outcomes s = s := by
  have hV3 := runPoller_v3_err outcomes s hfail
  rcases hsnap : s.snapshot with _ | d
  · cases outcomes with
    | nil => simp [runPoller, hact, hsnap, hV3]
    | cons o os =>
      have hL := runPoller_legacy_err_seed (o :: os) s hfail hact hm hsnap (by simp)
      rw [hL]
      simp [hact, hsnap, hV3]
  · have hL := runPoller_legacy_err_keep outcomes s hfail d hsnap
    rw [hL]
    simp [hact, hsnap, hV3]

/-- Witness for C7: two consecutive failures on a freshly-mounted poller leave
the interval active and install the placeholder snapshot exactly once. -/
theorem diagnostics_failures_swallowed_witness :
    (runPoller Legacy.fetchDiagnosticsApply [.err "boom", .err "crash"]
      samplePollState).intervalActive = true ∧
    (runPoller Legacy.fetchDiagnosticsApply [.err "boom", .err "crash"]
      samplePollState).snapshot = some Legacy.getMockDiagnostics := by
  have h := diagnostics_failures_swallowed samplePollState
    [.err "boom", .err "crash"]
    (by
      intro o ho
      simp only [List.mem_cons, List.mem_singleton] at ho
      rcases ho with rfl | rfl | h0
      · exact ⟨"boom", rfl⟩
      · exact ⟨"crash", rfl⟩
      · exact absurd h0 (List.not_mem_nil o))
    rfl rfl
  exact ⟨h.1, by simpa [samplePollState] using h.2.2.1⟩

/-- C8: once the poller is stopped (effect cleanup: `clearInterval` plus
unmount), no fetch ever executes again — any sequence of already-scheduled
ticks fires into the cleared interval and is a no-op — and the result of a
fetch that was still in flight at stop time is discarded on arrival (a React
state-setter call on an unmounted component has no effect) rather than
applied to the snapshot. Holds for both shipped poller variants. -/
theorem poller_stop_terminal (s : PollState)
    (outcomes : List (FetchResult Diagnostics))
    (inflight : FetchResult Diagnostics) :
    runPoller Legacy.fetchDiagnosticsApply outcomes (stopPoller s) = stopPoller s ∧
    runPoller V3.fetchDiagnosticsApply outcomes (stopPoller s) = stopPoller s ∧
    Legacy.fetchDiagnosticsApply inflight (stopPoller s) = stopPoller s ∧
    V3.fetchDiagnosticsApply inflight (stopPoller s) = stopPoller s := by
  refine ⟨runPoller_inactive _ _ _ rfl, runPoller_inactive _ _ _ rfl, ?_, ?_⟩
  · cases inflight with
    | ok d => simp [Legacy.fetchDiagnosticsApply, setSnapshot, stopPoller]
    | err m => simp [Legacy.fetchDiagnosticsApply, setSnapshot, stopPoller]
  · cases inflight with
    | ok d => simp [V3.fetchDiagnosticsApply, setSnapshot, stopPoller]
    | err m => rfl

/-- C9: every `handleCleanup` invocation that proceeds past the confirmation
modal and whose gateway call succeeds fires `fetchModels()` exactly once
afterwards, whatever count the backend reports — including zero (the handler
has no branch on the count). -/
theorem cleanup_always_refreshes_once (count : Nat)
    (rf : FetchResult (List V3.ModelInfo)) (s : V3.AppState) :
    (V3.handleCleanup (.ok count) rf s).2.refreshCalls = 1 := rfl

/-- C10: when preflight reports `is_standard = false` with no `custom_files`
field, the message construction reads `.join` of `undefined` and throws, so
the operation fails (error notice set) before the confirmation gate is ever
evaluated and with zero download-start calls; only the standard branch guards
against an absent `custom_files` (there the plain confirmation is built and
the gate is reached). -/
theorem missing_custom_files_fails_before_gate (repoId : String)
    (gate : String → Bool) (dl : FetchResult Unit)
    (rf : FetchResult (List V3.ModelInfo)) (s : V3.AppState) :
    ((V3.handleDownload repoId (.ok ⟨false, none⟩) gate dl rf s).2.gateEvaluated
        = false ∧
     (V3.handleDownload repoId (.ok ⟨false, none⟩) gate dl rf s).2.downloadCalls
        = 0 ∧
     (V3.handleDownload repoId (.ok ⟨false, none⟩) gate dl rf s).1.error =
       some "Cannot read properties of undefined (reading \x27join\x27)") ∧
    (V3.handleDownload repoId (.ok ⟨true, none⟩) gate dl rf s).2.confirmMsg =
      some ("Télécharger " ++ repoId ++ " ?") := by
  refine ⟨⟨rfl, rfl, rfl⟩, ?_⟩
  exact handleDownload_confirmMsg repoId ⟨true, none⟩ gate dl rf s _ rfl
